import Mathlib

/-!
Verification of the daigou ledger computation engine.

Shallow embedding of the transaction ledger logic from `src/types.ts` and
`src/App.tsx`. JavaScript numbers are modelled as exact rationals (ℚ);
`Math.round(x)` is JavaScript round-half-up, i.e. `⌊x + 1/2⌋`.
-/

namespace Daigou

/-- The closed country set, from `src/types.ts` line 1 (`type Country`). -/
inductive Country where
  | JP
  | KR
  | OTHER
deriving DecidableEq

/-- One purchase-and-resale event, from the `Transaction` interface in
`src/types.ts`. `country` is `Option Country` because at runtime the field may
be absent on records loaded from storage (the renderers accept
`Country | undefined`); `sellingExchangeRate` is the optional reference rate. -/
structure Transaction where
  id : String
  country : Option Country
  customerName : String
  itemName : String
  quantity : ℚ
  costJpy : ℚ
  exchangeRate : ℚ
  sellingExchangeRate : Option ℚ
  priceSold : ℚ
  date : String
deriving DecidableEq

/-- JavaScript `Math.round`: round half toward positive infinity,
`Math.round x = ⌊x + 1/2⌋`, kept in ℚ as the code keeps numbers. -/
def jsRound (q : ℚ) : ℚ := (⌊q + 1/2⌋ : ℤ)

/-- Unit local cost as computed by the UI table row,
`src/types.ts` line 590: `Math.round(t.costJpy * t.exchangeRate)`. -/
def uiLocalCostUnit (t : Transaction) : ℚ :=
  jsRound (t.costJpy * t.exchangeRate)

/-- Total profit as computed by the UI table row,
`src/types.ts` line 591: `(t.priceSold - localCostUnit) * t.quantity`. -/
def uiTotalProfit (t : Transaction) : ℚ :=
  (t.priceSold - uiLocalCostUnit t) * t.quantity

/-- Unit local cost as computed by the clipboard rendering,
`src/types.ts` line 479. -/
def clipLocalCostUnit (t : Transaction) : ℚ :=
  jsRound (t.costJpy * t.exchangeRate)

/-- Total profit as computed by the clipboard rendering,
`src/types.ts` line 480. -/
def clipTotalProfit (t : Transaction) : ℚ :=
  (t.priceSold - clipLocalCostUnit t) * t.quantity

/-- Unit local cost as computed by the CSV export, `src/App.tsx` line 122. -/
def csvLocalCostPerUnit (t : Transaction) : ℚ :=
  jsRound (t.costJpy * t.exchangeRate)

/-- Per-transaction total local cost in the CSV export, `src/App.tsx` line 123:
`localCostPerUnit * t.quantity`. -/
def csvLocalCostTotal (t : Transaction) : ℚ :=
  csvLocalCostPerUnit t * t.quantity

/-- Per-transaction total sales in the CSV export, `src/App.tsx` line 124. -/
def csvTotalSales (t : Transaction) : ℚ :=
  t.priceSold * t.quantity

/-- Total profit as computed by the CSV export, `src/App.tsx` line 125:
`totalSales - localCostTotal`. -/
def csvTotalProfit (t : Transaction) : ℚ :=
  csvTotalSales t - csvLocalCostTotal t

/-- Per-unit profit in the CSV export, `src/App.tsx` line 126. -/
def csvProfitPerUnit (t : Transaction) : ℚ :=
  t.priceSold - csvLocalCostPerUnit t

/-- C1: for every transaction, the derived unit local cost equals
`round(costForeign * exchangeRate)` (rounded once at the unit level), and the
derived total profit equals `(priceSold - unitLocalCost) * quantity` — in both
the clipboard derivation and the CSV derivation. -/
theorem derivation_rule_unit_cost_and_profit (t : Transaction) :
    clipLocalCostUnit t = jsRound (t.costJpy * t.exchangeRate) ∧
    clipTotalProfit t = (t.priceSold - clipLocalCostUnit t) * t.quantity ∧
    csvLocalCostPerUnit t = jsRound (t.costJpy * t.exchangeRate) ∧
    csvTotalProfit t = (t.priceSold - csvLocalCostPerUnit t) * t.quantity := by
  refine ⟨rfl, rfl, rfl, ?_⟩
  unfold csvTotalProfit csvTotalSales csvLocalCostTotal
  ring

/-- C3: the UI table row, the clipboard row and the CSV row compute numerically
identical unit local cost and total profit for every transaction. -/
theorem renderings_agree_on_derived_values (t : Transaction) :
    uiLocalCostUnit t = clipLocalCostUnit t ∧
    clipLocalCostUnit t = csvLocalCostPerUnit t ∧
    uiTotalProfit t = clipTotalProfit t ∧
    clipTotalProfit t = csvTotalProfit t := by
  refine ⟨rfl, rfl, rfl, ?_⟩
  unfold clipTotalProfit csvTotalProfit csvTotalSales csvLocalCostTotal
      clipLocalCostUnit csvLocalCostPerUnit
  ring

/-- Aggregate statistics, from the `SummaryStats` interface in `src/types.ts`. -/
structure SummaryStats where
  totalSales : ℚ
  totalCost : ℚ
  totalProfit : ℚ
  itemCount : ℚ
deriving DecidableEq

/-- One step of the `transactions.reduce` aggregation, `src/App.tsx`
lines 176-188. -/
def statsStep (acc : SummaryStats) (t : Transaction) : SummaryStats :=
  let unitCostTwd := jsRound (t.costJpy * t.exchangeRate)
  let totalCost := unitCostTwd * t.quantity
  let totalSales := t.priceSold * t.quantity
  let profit := totalSales - totalCost
  { totalSales := acc.totalSales + totalSales
    totalCost := acc.totalCost + totalCost
    totalProfit := acc.totalProfit + profit
    itemCount := acc.itemCount + t.quantity }

/-- Ledger aggregation `stats`, `src/App.tsx` lines 175-189: a reduce over the
transactions starting from all-zero accumulators. -/
def stats (ts : List Transaction) : SummaryStats :=
  ts.foldl statsStep { totalSales := 0, totalCost := 0, totalProfit := 0, itemCount := 0 }

/-- The fold computes componentwise sums over the ledger (helper lemma,
generalized over the accumulator). -/
theorem foldl_statsStep_eq (ts : List Transaction) (acc : SummaryStats) :
    ts.foldl statsStep acc =
      { totalSales := acc.totalSales + (ts.map (fun t => t.priceSold * t.quantity)).sum
        totalCost := acc.totalCost +
          (ts.map (fun t => jsRound (t.costJpy * t.exchangeRate) * t.quantity)).sum
        totalProfit := acc.totalProfit +
          (ts.map (fun t => (t.priceSold - jsRound (t.costJpy * t.exchangeRate)) * t.quantity)).sum
        itemCount := acc.itemCount + (ts.map (fun t => t.quantity)).sum } := by
  induction ts generalizing acc with
  | nil => simp
  | cons t ts ih =>
    rw [List.foldl_cons, ih]
    simp only [statsStep, List.map_cons, List.sum_cons, SummaryStats.mk.injEq]
    refine ⟨by ring, by ring, by ring, by ring⟩

/-- The aggregate as componentwise sums, starting accumulator zero (helper). -/
theorem stats_eq_sums (ts : List Transaction) :
    stats ts =
      { totalSales := (ts.map (fun t => t.priceSold * t.quantity)).sum
        totalCost := (ts.map (fun t => jsRound (t.costJpy * t.exchangeRate) * t.quantity)).sum
        totalProfit :=
          (ts.map (fun t => (t.priceSold - jsRound (t.costJpy * t.exchangeRate)) * t.quantity)).sum
        itemCount := (ts.map (fun t => t.quantity)).sum } := by
  rw [stats, foldl_statsStep_eq]
  simp

/-- The concrete KR transaction of the spec scenario: quantity 2, unit foreign
cost 1000, cost rate 0.02, sale price 30. -/
def krExample : Transaction :=
  { id := "t1", country := some Country.KR, customerName := "c", itemName := "i"
    quantity := 2, costJpy := 1000, exchangeRate := 0.02
    sellingExchangeRate := some 0.035, priceSold := 30, date := "2024-01-01" }

/-- C2: aggregation is the fold of the per-transaction derivation — totalSales
is the sum of priceSold·quantity, totalCost the sum of
round(costForeign·exchangeRate)·quantity, totalProfit the sum of per-transaction
total profits, itemCount the sum of quantities; and the single-transaction KR
ledger {quantity 2, costForeign 1000, exchangeRate 0.02, priceSold 30}
aggregates to totalSales 60, totalCost 40, totalProfit 20, itemCount 2. -/
theorem stats_is_sum_of_derivations (ts : List Transaction) :
    (stats ts).totalSales = (ts.map (fun t => t.priceSold * t.quantity)).sum ∧
    (stats ts).totalCost =
      (ts.map (fun t => jsRound (t.costJpy * t.exchangeRate) * t.quantity)).sum ∧
    (stats ts).totalProfit = (ts.map (fun t => clipTotalProfit t)).sum ∧
    (stats ts).itemCount = (ts.map (fun t => t.quantity)).sum ∧
    stats [krExample] =
      { totalSales := 60, totalCost := 40, totalProfit := 20, itemCount := 2 } := by
  rw [stats_eq_sums]
  refine ⟨rfl, rfl, ?_, rfl, ?_⟩
  · simp only [clipTotalProfit, clipLocalCostUnit]
  · norm_num [stats, statsStep, krExample, jsRound, SummaryStats.mk.injEq]

/-- C4: aggregating a permutation of the ledger yields the same SummaryStats —
aggregation is order-independent. -/
theorem stats_perm_invariant (l₁ l₂ : List Transaction) (h : l₁.Perm l₂) :
    stats l₁ = stats l₂ := by
  rw [stats_eq_sums, stats_eq_sums]
  simp only [SummaryStats.mk.injEq]
  exact ⟨(h.map _).sum_eq, (h.map _).sum_eq, (h.map _).sum_eq, (h.map _).sum_eq⟩

/-- A second concrete transaction, used to witness order-independence on a
two-element ledger. -/
def jpExample : Transaction :=
  { id := "t2", country := some Country.JP, customerName := "d", itemName := "j"
    quantity := 1, costJpy := 500, exchangeRate := 0.2
    sellingExchangeRate := none, priceSold := 150, date := "2024-01-02" }

/-- Witness for C4 at a concrete two-element ledger and its swap. -/
theorem stats_perm_invariant_witness :
    stats [krExample, jpExample] = stats [jpExample, krExample] :=
  stats_perm_invariant [krExample, jpExample] [jpExample, krExample]
    (List.Perm.swap jpExample krExample [])

/-- Deletion of a single transaction, `src/App.tsx` line 91:
`prev.filter(t => String(t.id) !== String(targetId))` — ids compared as text;
both are already strings in the embedding. -/
def removeTransaction (targetId : String) (ts : List Transaction) : List Transaction :=
  ts.filter (fun t => t.id != targetId)

/-- C5: remove(id) keeps exactly the transactions whose id differs from the
given id (string comparison), is a no-op when no transaction has that id, and
is idempotent. -/
theorem removeTransaction_spec (targetId : String) (ts : List Transaction) :
    (∀ t : Transaction, t ∈ removeTransaction targetId ts ↔ t ∈ ts ∧ t.id ≠ targetId) ∧
    ((∀ t ∈ ts, t.id ≠ targetId) → removeTransaction targetId ts = ts) ∧
    removeTransaction targetId (removeTransaction targetId ts) =
      removeTransaction targetId ts := by
  refine ⟨?_, ?_, ?_⟩
  · intro t
    simp [removeTransaction, List.mem_filter]
  · intro h
    rw [removeTransaction, List.filter_eq_self]
    intro t ht
    simpa using h t ht
  · rw [removeTransaction, removeTransaction, List.filter_filter]
    simp

/-- Witness for C5: the no-op branch discharged at a concrete ledger whose one
transaction has a different id, plus the idempotence instance. -/
theorem removeTransaction_spec_witness :
    removeTransaction "zzz" [krExample] = [krExample] ∧
    removeTransaction "t1" (removeTransaction "t1" [krExample]) =
      removeTransaction "t1" [krExample] := by
  refine ⟨(removeTransaction_spec "zzz" [krExample]).2.1 ?_,
    (removeTransaction_spec "t1" [krExample]).2.2⟩
  intro t ht
  simp only [List.mem_singleton] at ht
  subst ht
  decide

/-- Bulk clear, `src/App.tsx` line 93: `setTransactions([])` — the new ledger
is empty regardless of the previous one. -/
def clearTransactions (_ts : List Transaction) : List Transaction := []

/-- C6: clear() empties the ledger unconditionally, and aggregating the cleared
ledger yields all-zero SummaryStats. -/
theorem clearTransactions_spec (ts : List Transaction) :
    clearTransactions ts = [] ∧
    stats (clearTransactions ts) =
      { totalSales := 0, totalCost := 0, totalProfit := 0, itemCount := 0 } :=
  ⟨rfl, rfl⟩

/-- Per-country configuration record, from `COUNTRY_CONFIG` in `src/types.ts`
lines 161-165. -/
structure CountryConfig where
  label : String
  rate : ℚ
  sellingRate : ℚ
  currency : String
deriving DecidableEq

/-- The static country policy table `COUNTRY_CONFIG`, `src/types.ts`
lines 161-165 — total on the closed country set. -/
def COUNTRY_CONFIG : Country → CountryConfig
  | Country.JP => { label := "日本", rate := 0.2, sellingRate := 0.28, currency := "¥" }
  | Country.KR => { label := "韓國", rate := 0.02, sellingRate := 0.035, currency := "₩" }
  | Country.OTHER => { label := "其他", rate := 1.0, sellingRate := 1.0, currency := "$" }

/-- Country display label, `getCountryLabel` in `src/types.ts` lines 445-452;
accepts `Country | undefined` and defaults to the JP label. -/
def getCountryLabel (c : Option Country) : String :=
  match c with
  | some Country.JP => "日本"
  | some Country.KR => "韓國"
  | some Country.OTHER => "其他"
  | none => "日本"

/-- Currency symbol, `getCurrencySymbol` in `src/types.ts` lines 454-461;
accepts `Country | undefined` and defaults to the JP symbol. -/
def getCurrencySymbol (c : Option Country) : String :=
  match c with
  | some Country.JP => "¥"
  | some Country.KR => "₩"
  | some Country.OTHER => "$"
  | none => "¥"

/-- C7: the country policy table carries exactly the fixed JP/KR/OTHER rates
and symbols, the label and symbol lookups agree with the table on every defined
country, and a missing country resolves to the JP label and the JP symbol (the
lookups are total, so there is no error path). -/
theorem country_policy_spec :
    COUNTRY_CONFIG Country.JP =
      { label := "日本", rate := 0.2, sellingRate := 0.28, currency := "¥" } ∧
    COUNTRY_CONFIG Country.KR =
      { label := "韓國", rate := 0.02, sellingRate := 0.035, currency := "₩" } ∧
    COUNTRY_CONFIG Country.OTHER =
      { label := "其他", rate := 1.0, sellingRate := 1.0, currency := "$" } ∧
    (∀ c : Country, getCountryLabel (some c) = (COUNTRY_CONFIG c).label ∧
      getCurrencySymbol (some c) = (COUNTRY_CONFIG c).currency) ∧
    getCountryLabel none = (COUNTRY_CONFIG Country.JP).label ∧
    getCurrencySymbol none = (COUNTRY_CONFIG Country.JP).currency := by
  refine ⟨rfl, rfl, rfl, ?_, rfl, rfl⟩
  intro c
  cases c <;> exact ⟨rfl, rfl⟩

/-- JavaScript number-to-string conversion (template literals on numbers),
modelled as a canonical rendering of the exact rational value. -/
def numStr (q : ℚ) : String :=
  toString q.num ++ (if q.den = 1 then "" else "/" ++ toString q.den)

/-- Browser date formatting `new Date(s).toLocaleDateString()`, an external
API: modelled as the identity on the stored date string (the ordering and
quoting claims do not depend on its output). -/
def localeDateString (s : String) : String := s

/-- CSV quote-wrapping of a field, as written inline in `handleExportCSV`. -/
def csvQuote (s : String) : String := "\"" ++ s ++ "\""

/-- JavaScript `x || fallback` on an optional number rendered to text: `none`
(absent) and 0 are falsy, `src/types.ts` line 481 and `src/App.tsx` line 127. -/
def sellingRateText (v : Option ℚ) (fallback : String) : String :=
  match v with
  | none => fallback
  | some r => if r = 0 then fallback else numStr r

/-- Country label as computed inline in `handleExportCSV`, `src/App.tsx`
line 129: KR → 韓國, OTHER → 其他, anything else → 日本. -/
def csvCountryLabel (c : Option Country) : String :=
  if c = some Country.KR then "韓國" else if c = some Country.OTHER then "其他" else "日本"

/-- Currency symbol as computed inline in `handleExportCSV`, `src/App.tsx`
line 130. -/
def csvCurrencySymbol (c : Option Country) : String :=
  if c = some Country.KR then "₩" else if c = some Country.OTHER then "$" else "¥"

/-- One clipboard row (before joining with tabs), `handleCopyToClipboard` in
`src/types.ts` lines 478-497. -/
def clipRow (t : Transaction) : List String :=
  [localeDateString t.date,
   getCountryLabel t.country,
   t.customerName,
   t.itemName,
   numStr t.quantity,
   getCurrencySymbol t.country ++ numStr t.costJpy,
   numStr t.exchangeRate,
   sellingRateText t.sellingExchangeRate "-",
   "$" ++ numStr (clipLocalCostUnit t),
   "$" ++ numStr t.priceSold,
   "$" ++ numStr (clipTotalProfit t)]

/-- One CSV row (before joining with commas), `handleExportCSV` in
`src/App.tsx` lines 121-146. -/
def csvRow (t : Transaction) : List String :=
  [localeDateString t.date,
   csvCountryLabel t.country,
   csvQuote t.customerName,
   csvQuote t.itemName,
   numStr t.quantity,
   csvQuote (csvCurrencySymbol t.country ++ numStr t.costJpy),
   numStr t.exchangeRate,
   sellingRateText t.sellingExchangeRate "",
   csvQuote ("$" ++ numStr (csvLocalCostPerUnit t)),
   csvQuote ("$" ++ numStr t.priceSold),
   csvQuote ("$" ++ numStr (csvProfitPerUnit t)),
   csvQuote ("$" ++ numStr (csvTotalProfit t))]

/-- The clipboard rendering maps over a reversed copy of the ledger,
`src/types.ts` line 478: `transactions.slice().reverse().map(...)`. -/
def clipboardRows (ts : List Transaction) : List (List String) :=
  ts.reverse.map clipRow

/-- The CSV rendering maps over the ledger in insertion order,
`src/App.tsx` line 121: `transactions.map(...)`. -/
def csvRows (ts : List Transaction) : List (List String) :=
  ts.map csvRow

/-- C8: the clipboard rendering lists the transactions newest-first — it is the
exact reverse of mapping the row function over the ledger in insertion order —
while the CSV rendering maps over the ledger in insertion order; and in the CSV
row every field carrying free text (customerName, itemName) is individually
quote-wrapped, as are the symbol-prefixed money fields. -/
theorem export_order_and_quoting (ts : List Transaction) (t : Transaction) :
    clipboardRows ts = (ts.map clipRow).reverse ∧
    csvRows ts = ts.map csvRow ∧
    (csvRow t).get? 2 = some (csvQuote t.customerName) ∧
    (csvRow t).get? 3 = some (csvQuote t.itemName) ∧
    (csvRow t).get? 5 = some (csvQuote (csvCurrencySymbol t.country ++ numStr t.costJpy)) ∧
    (csvRow t).get? 8 = some (csvQuote ("$" ++ numStr (csvLocalCostPerUnit t))) ∧
    (csvRow t).get? 9 = some (csvQuote ("$" ++ numStr t.priceSold)) ∧
    (csvRow t).get? 10 = some (csvQuote ("$" ++ numStr (csvProfitPerUnit t))) ∧
    (csvRow t).get? 11 = some (csvQuote ("$" ++ numStr (csvTotalProfit t))) := by
  refine ⟨?_, rfl, rfl, rfl, rfl, rfl, rfl, rfl, rfl⟩
  rw [clipboardRows, List.map_reverse]

/-- The entry form's field state, `formData` in `TransactionForm`
(`src/types.ts` lines 170-179). Numeric fields hold the `parseInt`/`parseFloat`
result of the text input (`none` = NaN, i.e. unparsable), since number parsing
is a JavaScript builtin outside the core. -/
structure FormData where
  date : String
  customerName : String
  itemName : String
  quantity : Option ℚ
  costForeign : Option ℚ
  exchangeRate : Option ℚ
  sellingExchangeRate : Option ℚ
  priceSold : Option ℚ
deriving DecidableEq

/-- JavaScript `parsed || default` on a numeric parse result: NaN (`none`) and
0 are falsy and yield the default. -/
def jsOrNum (v : Option ℚ) (d : ℚ) : ℚ :=
  match v with
  | none => d
  | some x => if x = 0 then d else x

/-- Form submission `handleSubmit`, `src/types.ts` lines 217-240: rejected when
`customerName` or `itemName` is the empty string (JavaScript falsiness on
strings); otherwise coerces the numeric fields and appends one new transaction
via `onAddTransaction` (`src/App.tsx` line 100: `prev => [...prev, newTransaction]`).
`genId` is the generated id (Date.now/Math.random, external) and `nowIso` the
current ISO timestamp used when the date field is empty. -/
def handleSubmit (genId nowIso : String) (country : Country) (form : FormData)
    (ts : List Transaction) : List Transaction :=
  if form.customerName = "" ∨ form.itemName = "" then ts
  else
    ts ++ [{ id := genId
             country := some country
             customerName := form.customerName
             itemName := form.itemName
             quantity := jsOrNum form.quantity 1
             costJpy := jsOrNum form.costForeign 0
             exchangeRate := jsOrNum form.exchangeRate 0
             sellingExchangeRate := some (jsOrNum form.sellingExchangeRate 0)
             priceSold := jsOrNum form.priceSold 0
             date := if form.date = "" then nowIso else form.date }]

/-- C9: a submission with an empty customerName or itemName performs no add —
the ledger is unchanged and no transaction is created; when both required text
fields are non-empty, the submission appends exactly one new transaction to the
end of the ledger. -/
theorem handleSubmit_validation (genId nowIso : String) (country : Country)
    (form : FormData) (ts : List Transaction) :
    ((form.customerName = "" ∨ form.itemName = "") →
      handleSubmit genId nowIso country form ts = ts) ∧
    (form.customerName ≠ "" → form.itemName ≠ "" →
      ∃ newT : Transaction, handleSubmit genId nowIso country form ts = ts ++ [newT]) := by
  constructor
  · intro h
    rw [handleSubmit, if_pos h]
  · intro h₁ h₂
    rw [handleSubmit, if_neg ?_]
    · exact ⟨_, rfl⟩
    · rintro (hc | hi)
      · exact h₁ hc
      · exact h₂ hi

/-- Witness for C9 at concrete forms: an empty customer name leaves the ledger
unchanged, and a fully named form appends exactly one transaction. -/
theorem handleSubmit_validation_witness :
    handleSubmit "id1" "2024-01-01" Country.JP
      { date := "2024-01-01", customerName := "", itemName := "item",
        quantity := some 1, costForeign := some 10, exchangeRate := some 0.2,
        sellingExchangeRate := some 0.28, priceSold := some 3 } [] = [] ∧
    ∃ newT : Transaction,
      handleSubmit "id1" "2024-01-01" Country.JP
        { date := "2024-01-01", customerName := "alice", itemName := "item",
          quantity := some 1, costForeign := some 10, exchangeRate := some 0.2,
          sellingExchangeRate := some 0.28, priceSold := some 3 } [] = [] ++ [newT] :=
  ⟨(handleSubmit_validation "id1" "2024-01-01" Country.JP _ []).1 (Or.inl rfl),
   (handleSubmit_validation "id1" "2024-01-01" Country.JP _ []).2
     (by decide) (by decide)⟩

/-- Per-transaction profit placed in the outbound analysis summary,
`analyzeSalesData` in `src/types.ts` line 75:
`(t.priceSold - (t.costJpy * t.exchangeRate)) * t.quantity` — no rounding. -/
def aiProfit (t : Transaction) : ℚ :=
  (t.priceSold - t.costJpy * t.exchangeRate) * t.quantity

/-- Rounding moves every non-integer rational (helper). -/
theorem jsRound_ne_self (q : ℚ) (h : q.den ≠ 1) : jsRound q ≠ q := by
  intro he
  apply h
  rw [← he, jsRound]
  exact Rat.den_intCast _

/-- C10: the analysis-summary profit equals
`(priceSold - costForeign * exchangeRate) * quantity` with no unit-level
rounding, so whenever `costForeign * exchangeRate` is not an integer (and the
quantity respects the data-model invariant `quantity ≥ 1`) it differs from the
totalProfit computed by the UI table, clipboard and CSV renderings. -/
theorem aiProfit_unrounded_differs (t : Transaction)
    (hden : (t.costJpy * t.exchangeRate).den ≠ 1) (hq : 1 ≤ t.quantity) :
    aiProfit t = (t.priceSold - t.costJpy * t.exchangeRate) * t.quantity ∧
    aiProfit t ≠ uiTotalProfit t ∧
    aiProfit t ≠ clipTotalProfit t ∧
    aiProfit t ≠ csvTotalProfit t := by
  have hq0 : t.quantity ≠ 0 := by
    intro h0
    rw [h0] at hq
    exact absurd hq (by norm_num)
  have hr : jsRound (t.costJpy * t.exchangeRate) ≠ t.costJpy * t.exchangeRate :=
    jsRound_ne_self _ hden
  have key : aiProfit t ≠ (t.priceSold - jsRound (t.costJpy * t.exchangeRate)) * t.quantity := by
    intro he
    rw [aiProfit] at he
    have := mul_right_cancel₀ hq0 he
    apply hr
    linarith
  refine ⟨rfl, ?_, ?_, ?_⟩
  · intro he
    exact key (he.trans (by rw [uiTotalProfit, uiLocalCostUnit]))
  · intro he
    exact key (he.trans (by rw [clipTotalProfit, clipLocalCostUnit]))
  · intro he
    apply key
    rw [he, csvTotalProfit, csvTotalSales, csvLocalCostTotal, csvLocalCostPerUnit]
    ring

/-- A transaction whose unit local cost 10 · 0.035 = 0.35 is not an integer:
quantity 1, price 5. Its analysis profit is 4.65 while the rendered total
profit is 5. -/
def fractionalExample : Transaction :=
  { id := "t3", country := some Country.KR, customerName := "c", itemName := "i"
    quantity := 1, costJpy := 10, exchangeRate := 0.035
    sellingExchangeRate := none, priceSold := 5, date := "2024-01-03" }

/-- Witness for C10 at the concrete fractional-cost transaction. -/
theorem aiProfit_unrounded_differs_witness :
    (fractionalExample.costJpy * fractionalExample.exchangeRate).den ≠ 1 ∧
    1 ≤ fractionalExample.quantity ∧
    aiProfit fractionalExample ≠ clipTotalProfit fractionalExample :=
  ⟨by norm_num [fractionalExample], by norm_num [fractionalExample],
   (aiProfit_unrounded_differs fractionalExample (by norm_num [fractionalExample])
     (by norm_num [fractionalExample])).2.2.1⟩

end Daigou
